import Mathlib

/-!
Shallow embedding of
`src/python/packages/autogen-agentchat/src/autogen_agentchat/conditions/_terminations.py`
(the termination-condition predicates of autogen-agentchat) and proofs of the
spec claims about it.

Modelling conventions:
* Every predicate instance is a Lean structure holding exactly the instance
  attributes the Python `__init__` sets (configuration and progress state
  together, as in the Python objects).
* The asynchronous `__call__` method is a pure function
  `state → batch → Except AgentError (Option StopMessage × state)`;
  raising `TerminatedException` is the `.error (.terminatedErr …)` branch,
  and `ValueError` in a constructor is `.error (.valueError …)`.
* Messages are a closed tagged union over the kinds the file inspects
  (`StopMessage`, `TextMessage`, `HandoffMessage`, `ToolCallExecutionEvent`,
  other chat messages, other agent events), with `source`, the rendering
  `to_text()`, and the optional `models_usage` record.
* `time.monotonic()` readings are passed explicitly as an integer clock
  parameter to `TimeoutTermination`'s operations.
* Python string interpolation of ints matches Lean `toString` on `Int`/`Nat`.
-/

/-- Usage record attached to a message: `models_usage` with
`prompt_tokens` and `completion_tokens`. -/
structure RequestUsage where
  prompt_tokens : Nat
  completion_tokens : Nat
deriving Repr, DecidableEq

/-- The message kinds distinguished by `_terminations.py` via `isinstance`
checks: stop markers, plain text messages, handoff messages (carrying their
target), tool-call execution events (carrying the names of the executed
functions), and the remaining chat messages / agent events it never matches
on. -/
inductive MessageKind where
  | stopMsg
  | textMsg
  | handoffMsg (target : String)
  | toolCallExecutionEvent (names : List String)
  | otherChatMsg
  | otherAgentEvent
deriving Repr, DecidableEq

/-- An incoming message: `source`, kind discriminator, the result of
`to_text()`, and the optional usage record. -/
structure Message where
  source : String
  kind : MessageKind
  text : String
  models_usage : Option RequestUsage
deriving Repr, DecidableEq

/-- `isinstance(m, BaseChatMessage)`: chat messages are every kind except the
agent events (`ToolCallExecutionEvent` is a `BaseAgentEvent`). -/
def isChatMessage (m : Message) : Bool :=
  match m.kind with
  | .toolCallExecutionEvent _ => false
  | .otherAgentEvent => false
  | _ => true

/-- The stop directive a predicate returns when it fires: a `StopMessage`
value with `content` and `source`. -/
structure StopMessage where
  content : String
  source : String
deriving Repr, DecidableEq

/-- Errors raised by the module: `TerminatedException` from `__call__` on an
already-triggered predicate, and `ValueError` from a constructor. -/
inductive AgentError where
  | terminatedErr (msg : String)
  | valueError (msg : String)
deriving Repr, DecidableEq

/-- The message of every `TerminatedException` raised in the file. -/
def alreadyMsg : String := "Termination condition has already been reached"

/-- Python `needle in haystack` on the character lists: does `needle` occur
at the head of `haystack`? -/
def beginsWith : List Char → List Char → Bool
  | [], _ => true
  | _ :: _, [] => false
  | n :: ns, h :: hs => (n == h) && beginsWith ns hs

/-- Does `needle` occur as a contiguous sublist of `haystack`? -/
def listContainsSub (needle : List Char) : List Char → Bool
  | [] => beginsWith needle []
  | h :: hs => beginsWith needle (h :: hs) || listContainsSub needle hs

/-- Python substring test `needle in haystack` on strings. -/
def strContains (haystack needle : String) : Bool :=
  listContainsSub needle.data haystack.data

/-- The shared scanning loop of the stateless-trigger predicates:
`for message in messages: if qual(message): return mk(message)`, returning
the directive of the first qualifying message. -/
def scanFirst (qual : Message → Bool) (mk : Message → StopMessage) :
    List Message → Option StopMessage
  | [] => none
  | m :: rest => if qual m then some (mk m) else scanFirst qual mk rest

/-! ## StopMessageTermination -/

structure StopMessageTerminationConfig where
deriving Repr, DecidableEq

/-- Instance state of `StopMessageTermination`. -/
structure StopMessageTermination where
  terminated : Bool
deriving Repr, DecidableEq

namespace StopMessageTermination

/-- `__init__`. -/
def init : StopMessageTermination := ⟨false⟩

def qual (m : Message) : Bool :=
  match m.kind with
  | .stopMsg => true
  | _ => false

def directive : StopMessage :=
  ⟨"Stop message received", "StopMessageTermination"⟩

/-- `__call__`. -/
def call (s : StopMessageTermination) (messages : List Message) :
    Except AgentError (Option StopMessage × StopMessageTermination) :=
  if s.terminated then .error (.terminatedErr alreadyMsg)
  else
    match scanFirst qual (fun _ => directive) messages with
    | some d => .ok (some d, ⟨true⟩)
    | none => .ok (none, s)

/-- `reset`. -/
def reset (_s : StopMessageTermination) : StopMessageTermination := ⟨false⟩

def to_config (_s : StopMessageTermination) : StopMessageTerminationConfig := ⟨⟩

def from_config (_c : StopMessageTerminationConfig) : StopMessageTermination :=
  init

end StopMessageTermination

/-! ## MaxMessageTermination -/

structure MaxMessageTerminationConfig where
  max_messages : Int
  include_agent_event : Bool
deriving Repr, DecidableEq

/-- Instance state of `MaxMessageTermination`: the configured ceiling, the
running count, and the `include_agent_event` flag. The count is a `Nat`
because it starts at 0 and only ever grows by batch sizes. -/
structure MaxMessageTermination where
  max_messages : Int
  message_count : Nat
  include_agent_event : Bool
deriving Repr, DecidableEq

/-- Reason string of the stop directive, reporting the post-increment count. -/
def maxMessageStopContent (mx : Int) (c : Nat) : String :=
  "Maximum number of messages " ++ toString mx ++
    " reached, current message count: " ++ toString c

namespace MaxMessageTermination

/-- `__init__(max_messages, include_agent_event)`: no validation is
performed. -/
def init (max_messages : Int) (include_agent_event : Bool) :
    MaxMessageTermination :=
  ⟨max_messages, 0, include_agent_event⟩

/-- The `terminated` property: `message_count >= max_messages`. -/
def terminated (s : MaxMessageTermination) : Bool :=
  (s.message_count : Int) ≥ s.max_messages

/-- The count of qualifying messages in a batch:
`len([m for m in messages if include_agent_event or isinstance(m, BaseChatMessage)])`. -/
def qualCount (include_agent_event : Bool) (messages : List Message) : Nat :=
  (messages.filter (fun m => include_agent_event || isChatMessage m)).length

/-- `__call__`. -/
def call (s : MaxMessageTermination) (messages : List Message) :
    Except AgentError (Option StopMessage × MaxMessageTermination) :=
  if s.terminated then .error (.terminatedErr alreadyMsg)
  else
    let c := s.message_count + qualCount s.include_agent_event messages
    if (c : Int) ≥ s.max_messages then
      .ok (some ⟨maxMessageStopContent s.max_messages c, "MaxMessageTermination"⟩,
        ⟨s.max_messages, c, s.include_agent_event⟩)
    else .ok (none, ⟨s.max_messages, c, s.include_agent_event⟩)

/-- `reset`: zero the count. -/
def reset (s : MaxMessageTermination) : MaxMessageTermination :=
  ⟨s.max_messages, 0, s.include_agent_event⟩

def to_config (s : MaxMessageTermination) : MaxMessageTerminationConfig :=
  ⟨s.max_messages, s.include_agent_event⟩

def from_config (c : MaxMessageTerminationConfig) : MaxMessageTermination :=
  init c.max_messages c.include_agent_event

end MaxMessageTermination

/-! ## TextMentionTermination -/

/-- Serialized configuration: only `text`; the `sources` allow-list has no
field in the config schema. -/
structure TextMentionTerminationConfig where
  text : String
deriving Repr, DecidableEq

/-- Instance state of `TextMentionTermination`. -/
structure TextMentionTermination where
  termination_text : String
  terminated : Bool
  sources : Option (List String)
deriving Repr, DecidableEq

/-- Reason string: `Text '<text>' mentioned`. -/
def textMentionStopContent (text : String) : String :=
  "Text \x27" ++ text ++ "\x27 mentioned"

namespace TextMentionTermination

/-- `__init__(text, sources=None)`. -/
def init (text : String) (sources : Option (List String)) :
    TextMentionTermination :=
  ⟨text, false, sources⟩

/-- The loop body filter: skip messages whose source is filtered out
(`continue`), fire when the termination text occurs in `to_text()`. -/
def qual (s : TextMentionTermination) (m : Message) : Bool :=
  (match s.sources with
   | some srcs => srcs.contains m.source
   | none => true)
  && strContains m.text s.termination_text

/-- `__call__`. -/
def call (s : TextMentionTermination) (messages : List Message) :
    Except AgentError (Option StopMessage × TextMentionTermination) :=
  if s.terminated then .error (.terminatedErr alreadyMsg)
  else
    match scanFirst (qual s)
        (fun _ => ⟨textMentionStopContent s.termination_text,
          "TextMentionTermination"⟩) messages with
    | some d => .ok (some d, ⟨s.termination_text, true, s.sources⟩)
    | none => .ok (none, s)

/-- `reset`. -/
def reset (s : TextMentionTermination) : TextMentionTermination :=
  ⟨s.termination_text, false, s.sources⟩

/-- `_to_config`: serializes `text` only; `sources` is dropped. -/
def to_config (s : TextMentionTermination) : TextMentionTerminationConfig :=
  ⟨s.termination_text⟩

/-- `_from_config`: rebuilds with the default `sources=None`. -/
def from_config (c : TextMentionTerminationConfig) : TextMentionTermination :=
  init c.text none

end TextMentionTermination

/-! ## FunctionalTermination

The user-supplied function is passed as an explicit parameter `f`; the
`asyncio.iscoroutinefunction` branch only changes how the same boolean result
is obtained. -/

structure FunctionalTermination where
  terminated : Bool
deriving Repr, DecidableEq

namespace FunctionalTermination

def init : FunctionalTermination := ⟨false⟩

/-- `__call__` with the stored function `f`. -/
def call (f : List Message → Bool) (s : FunctionalTermination)
    (messages : List Message) :
    Except AgentError (Option StopMessage × FunctionalTermination) :=
  if s.terminated then .error (.terminatedErr alreadyMsg)
  else if f messages then
    .ok (some ⟨"Functional termination condition met", "FunctionalTermination"⟩,
      ⟨true⟩)
  else .ok (none, s)

def reset (_s : FunctionalTermination) : FunctionalTermination := ⟨false⟩

end FunctionalTermination

/-! ## TokenUsageTermination -/

structure TokenUsageTerminationConfig where
  max_total_token : Option Int
  max_prompt_token : Option Int
  max_completion_token : Option Int
deriving Repr, DecidableEq

/-- Instance state of `TokenUsageTermination`: three optional ceilings and
three independently accumulated running totals. -/
structure TokenUsageTermination where
  max_total_token : Option Int
  max_prompt_token : Option Int
  max_completion_token : Option Int
  total_token_count : Nat
  prompt_token_count : Nat
  completion_token_count : Nat
deriving Repr, DecidableEq

/-- The `ValueError` message of the constructor. -/
def tokenUsageCfgMsg : String :=
  "At least one of max_total_token, max_prompt_token, or max_completion_token must be provided"

/-- Reason string reporting all three totals. -/
def tokenUsageStopContent (total prompt completion : Nat) : String :=
  "Token usage limit reached, total token count: " ++ toString total ++
    ", prompt token count: " ++ toString prompt ++
    ", completion token count: " ++ toString completion ++ "."

namespace TokenUsageTermination

/-- `__init__`: raises `ValueError` when no ceiling at all is provided. -/
def init (max_total_token max_prompt_token max_completion_token : Option Int) :
    Except AgentError TokenUsageTermination :=
  if max_total_token.isNone && max_prompt_token.isNone
      && max_completion_token.isNone then
    .error (.valueError tokenUsageCfgMsg)
  else
    .ok ⟨max_total_token, max_prompt_token, max_completion_token, 0, 0, 0⟩

/-- The `terminated` property: any configured ceiling reached by its
corresponding total. -/
def terminated (s : TokenUsageTermination) : Bool :=
  (match s.max_total_token with
   | some m => (s.total_token_count : Int) ≥ m
   | none => false)
  || (match s.max_prompt_token with
      | some m => (s.prompt_token_count : Int) ≥ m
      | none => false)
  || (match s.max_completion_token with
      | some m => (s.completion_token_count : Int) ≥ m
      | none => false)

/-- The accumulation loop of `__call__`: add every message's usage record to
the three totals. -/
def accumulate (s : TokenUsageTermination) :
    List Message → TokenUsageTermination
  | [] => s
  | m :: rest =>
    match m.models_usage with
    | some u =>
      accumulate
        ⟨s.max_total_token, s.max_prompt_token, s.max_completion_token,
          s.total_token_count + (u.prompt_tokens + u.completion_tokens),
          s.prompt_token_count + u.prompt_tokens,
          s.completion_token_count + u.completion_tokens⟩ rest
    | none => accumulate s rest

/-- `__call__`: accumulate the whole batch, then check the ceilings. -/
def call (s : TokenUsageTermination) (messages : List Message) :
    Except AgentError (Option StopMessage × TokenUsageTermination) :=
  if s.terminated then .error (.terminatedErr alreadyMsg)
  else
    let t := accumulate s messages
    if t.terminated then
      .ok (some ⟨tokenUsageStopContent t.total_token_count t.prompt_token_count
        t.completion_token_count, "TokenUsageTermination"⟩, t)
    else .ok (none, t)

/-- `reset`: zero all three totals. -/
def reset (s : TokenUsageTermination) : TokenUsageTermination :=
  ⟨s.max_total_token, s.max_prompt_token, s.max_completion_token, 0, 0, 0⟩

def to_config (s : TokenUsageTermination) : TokenUsageTerminationConfig :=
  ⟨s.max_total_token, s.max_prompt_token, s.max_completion_token⟩

def from_config (c : TokenUsageTerminationConfig) :
    Except AgentError TokenUsageTermination :=
  init c.max_total_token c.max_prompt_token c.max_completion_token

end TokenUsageTermination

/-! ## HandoffTermination -/

structure HandoffTerminationConfig where
  target : String
deriving Repr, DecidableEq

structure HandoffTermination where
  terminated : Bool
  target : String
deriving Repr, DecidableEq

/-- Reason string: `Handoff to <target> from <source> detected.` -/
def handoffStopContent (target source : String) : String :=
  "Handoff to " ++ target ++ " from " ++ source ++ " detected."

namespace HandoffTermination

def init (target : String) : HandoffTermination := ⟨false, target⟩

/-- `isinstance(m, HandoffMessage) and m.target == target`. -/
def qual (s : HandoffTermination) (m : Message) : Bool :=
  match m.kind with
  | .handoffMsg target => target == s.target
  | _ => false

/-- `__call__`. -/
def call (s : HandoffTermination) (messages : List Message) :
    Except AgentError (Option StopMessage × HandoffTermination) :=
  if s.terminated then .error (.terminatedErr alreadyMsg)
  else
    match scanFirst (qual s)
        (fun m => ⟨handoffStopContent s.target m.source, "HandoffTermination"⟩)
        messages with
    | some d => .ok (some d, ⟨true, s.target⟩)
    | none => .ok (none, s)

def reset (s : HandoffTermination) : HandoffTermination := ⟨false, s.target⟩

def to_config (s : HandoffTermination) : HandoffTerminationConfig :=
  ⟨s.target⟩

def from_config (c : HandoffTerminationConfig) : HandoffTermination :=
  init c.target

end HandoffTermination

/-! ## TimeoutTermination

`time.monotonic()` readings are modelled as an integer clock passed
explicitly to `init` (the construction-time reading), `call` and `reset`. -/

structure TimeoutTerminationConfig where
  timeout_seconds : Int
deriving Repr, DecidableEq

structure TimeoutTermination where
  timeout_seconds : Int
  start_time : Int
  terminated : Bool
deriving Repr, DecidableEq

/-- Reason string: `Timeout of <n> seconds reached`. -/
def timeoutStopContent (timeout : Int) : String :=
  "Timeout of " ++ toString timeout ++ " seconds reached"

namespace TimeoutTermination

/-- `__init__`: captures the current monotonic reading `now`. -/
def init (timeout_seconds now : Int) : TimeoutTermination :=
  ⟨timeout_seconds, now, false⟩

/-- `__call__` at clock reading `now`. -/
def call (s : TimeoutTermination) (now : Int) (_messages : List Message) :
    Except AgentError (Option StopMessage × TimeoutTermination) :=
  if s.terminated then .error (.terminatedErr alreadyMsg)
  else if now - s.start_time ≥ s.timeout_seconds then
    .ok (some ⟨timeoutStopContent s.timeout_seconds, "TimeoutTermination"⟩,
      ⟨s.timeout_seconds, s.start_time, true⟩)
  else .ok (none, s)

/-- `reset` at clock reading `now`: recaptures the current time. -/
def reset (s : TimeoutTermination) (now : Int) : TimeoutTermination :=
  ⟨s.timeout_seconds, now, false⟩

def to_config (s : TimeoutTermination) : TimeoutTerminationConfig :=
  ⟨s.timeout_seconds⟩

def from_config (c : TimeoutTerminationConfig) (now : Int) :
    TimeoutTermination :=
  init c.timeout_seconds now

end TimeoutTermination

/-! ## ExternalTermination -/

structure ExternalTerminationConfig where
deriving Repr, DecidableEq

structure ExternalTermination where
  terminated : Bool
  setted : Bool
deriving Repr, DecidableEq

namespace ExternalTermination

def init : ExternalTermination := ⟨false, false⟩

/-- `set()`: arm the pending flag. -/
def set (s : ExternalTermination) : ExternalTermination :=
  ⟨s.terminated, true⟩

def directive : StopMessage :=
  ⟨"External termination requested", "ExternalTermination"⟩

/-- `__call__`: fires when the pending flag is armed, ignoring the batch. -/
def call (s : ExternalTermination) (_messages : List Message) :
    Except AgentError (Option StopMessage × ExternalTermination) :=
  if s.terminated then .error (.terminatedErr alreadyMsg)
  else if s.setted then .ok (some directive, ⟨true, s.setted⟩)
  else .ok (none, s)

def reset (_s : ExternalTermination) : ExternalTermination := ⟨false, false⟩

def to_config (_s : ExternalTermination) : ExternalTerminationConfig := ⟨⟩

def from_config (_c : ExternalTerminationConfig) : ExternalTermination := init

end ExternalTermination

/-! ## SourceMatchTermination -/

structure SourceMatchTerminationConfig where
  sources : List String
deriving Repr, DecidableEq

structure SourceMatchTermination where
  sources : List String
  terminated : Bool
deriving Repr, DecidableEq

/-- Reason string: `'<source>' answered`. -/
def sourceMatchStopContent (source : String) : String :=
  "\x27" ++ source ++ "\x27 answered"

namespace SourceMatchTermination

def init (sources : List String) : SourceMatchTermination :=
  ⟨sources, false⟩

def qual (s : SourceMatchTermination) (m : Message) : Bool :=
  s.sources.contains m.source

/-- `__call__`: note the explicit early return on an empty batch. -/
def call (s : SourceMatchTermination) (messages : List Message) :
    Except AgentError (Option StopMessage × SourceMatchTermination) :=
  if s.terminated then .error (.terminatedErr alreadyMsg)
  else if messages.isEmpty then .ok (none, s)
  else
    match scanFirst (qual s)
        (fun m => ⟨sourceMatchStopContent m.source, "SourceMatchTermination"⟩)
        messages with
    | some d => .ok (some d, ⟨s.sources, true⟩)
    | none => .ok (none, s)

def reset (s : SourceMatchTermination) : SourceMatchTermination :=
  ⟨s.sources, false⟩

def to_config (s : SourceMatchTermination) : SourceMatchTerminationConfig :=
  ⟨s.sources⟩

def from_config (c : SourceMatchTerminationConfig) : SourceMatchTermination :=
  init c.sources

end SourceMatchTermination

/-! ## TextMessageTermination -/

structure TextMessageTerminationConfig where
  source : Option String
deriving Repr, DecidableEq

structure TextMessageTermination where
  terminated : Bool
  source : Option String
deriving Repr, DecidableEq

/-- Reason string: `Text message received from '<source>'`. -/
def textMessageStopContent (source : String) : String :=
  "Text message received from \x27" ++ source ++ "\x27"

namespace TextMessageTermination

def init (source : Option String) : TextMessageTermination :=
  ⟨false, source⟩

/-- `isinstance(m, TextMessage)` and the optional source restriction. -/
def qual (s : TextMessageTermination) (m : Message) : Bool :=
  (match m.kind with
   | .textMsg => true
   | _ => false)
  && (match s.source with
      | some src => m.source == src
      | none => true)

/-- `__call__`. -/
def call (s : TextMessageTermination) (messages : List Message) :
    Except AgentError (Option StopMessage × TextMessageTermination) :=
  if s.terminated then .error (.terminatedErr alreadyMsg)
  else
    match scanFirst (qual s)
        (fun m => ⟨textMessageStopContent m.source, "TextMessageTermination"⟩)
        messages with
    | some d => .ok (some d, ⟨true, s.source⟩)
    | none => .ok (none, s)

def reset (s : TextMessageTermination) : TextMessageTermination :=
  ⟨false, s.source⟩

def to_config (s : TextMessageTermination) : TextMessageTerminationConfig :=
  ⟨s.source⟩

def from_config (c : TextMessageTerminationConfig) : TextMessageTermination :=
  init c.source

end TextMessageTermination

/-! ## FunctionCallTermination -/

structure FunctionCallTerminationConfig where
  function_name : String
deriving Repr, DecidableEq

structure FunctionCallTermination where
  terminated : Bool
  function_name : String
deriving Repr, DecidableEq

/-- Reason string: `Function '<name>' was executed.` -/
def functionCallStopContent (name : String) : String :=
  "Function \x27" ++ name ++ "\x27 was executed."

namespace FunctionCallTermination

def init (function_name : String) : FunctionCallTermination :=
  ⟨false, function_name⟩

/-- A `ToolCallExecutionEvent` one of whose execution entries has the
configured name. -/
def qual (s : FunctionCallTermination) (m : Message) : Bool :=
  match m.kind with
  | .toolCallExecutionEvent names => names.contains s.function_name
  | _ => false

/-- `__call__`: the nested loops return on the first event containing an
execution entry with the configured name; the directive depends only on the
configured name. -/
def call (s : FunctionCallTermination) (messages : List Message) :
    Except AgentError (Option StopMessage × FunctionCallTermination) :=
  if s.terminated then .error (.terminatedErr alreadyMsg)
  else
    match scanFirst (qual s)
        (fun _ => ⟨functionCallStopContent s.function_name,
          "FunctionCallTermination"⟩) messages with
    | some d => .ok (some d, ⟨true, s.function_name⟩)
    | none => .ok (none, s)

def reset (s : FunctionCallTermination) : FunctionCallTermination :=
  ⟨false, s.function_name⟩

def to_config (s : FunctionCallTermination) : FunctionCallTerminationConfig :=
  ⟨s.function_name⟩

def from_config (c : FunctionCallTerminationConfig) : FunctionCallTermination :=
  init c.function_name

end FunctionCallTermination

/-! ## Generic lemmas about the scanning loop -/

theorem scanFirst_append_some (qual : Message → Bool) (mk : Message → StopMessage)
    (pre rest : List Message) (d : StopMessage)
    (h : scanFirst qual mk pre = some d) :
    scanFirst qual mk (pre ++ rest) = some d := by
  induction pre with
  | nil => simp [scanFirst] at h
  | cons m t ih =>
    rw [List.cons_append]
    unfold scanFirst at h ⊢
    by_cases hq : qual m = true
    · rw [if_pos hq] at h
      rw [if_pos hq]
      exact h
    · rw [if_neg hq] at h
      rw [if_neg hq]
      exact ih h

/-- C1: the serialization round-trip claim fails on the code for
`TextMentionTermination` constructed with a `sources` allow-list:
`_to_config` serializes only `text`, so the rebuilt predicate scans all
sources. On a batch with one text message from `agentB` containing `DONE`,
the original (allow-list `[agentA]`) returns no directive, while the
round-tripped predicate fires. -/
theorem C1_text_mention_roundtrip_divergence :
    TextMentionTermination.call
        (TextMentionTermination.init "DONE" (some ["agentA"]))
        [⟨"agentB", .textMsg, "DONE", none⟩]
      = .ok (none, TextMentionTermination.init "DONE" (some ["agentA"])) ∧
    TextMentionTermination.to_config
        (TextMentionTermination.init "DONE" (some ["agentA"])) = ⟨"DONE"⟩ ∧
    TextMentionTermination.from_config ⟨"DONE"⟩
      = TextMentionTermination.init "DONE" none ∧
    TextMentionTermination.call (TextMentionTermination.init "DONE" none)
        [⟨"agentB", .textMsg, "DONE", none⟩]
      = .ok (some ⟨textMentionStopContent "DONE", "TextMentionTermination"⟩,
          ⟨"DONE", true, none⟩) := by
  refine ⟨?_, rfl, rfl, ?_⟩ <;> rfl

/-- C2: one-shot invariant. For every predicate, once a `__call__` returns a
directive, every later `__call__` on the resulting state (any batch, and for
the timeout predicate any later clock reading) raises the
`TerminatedException`. -/
theorem C2_one_shot :
    (∀ (s s' : StopMessageTermination) d msgs msgs2,
      StopMessageTermination.call s msgs = .ok (some d, s') →
      StopMessageTermination.call s' msgs2 = .error (.terminatedErr alreadyMsg)) ∧
    (∀ (s s' : MaxMessageTermination) d msgs msgs2,
      MaxMessageTermination.call s msgs = .ok (some d, s') →
      MaxMessageTermination.call s' msgs2 = .error (.terminatedErr alreadyMsg)) ∧
    (∀ (s s' : TextMentionTermination) d msgs msgs2,
      TextMentionTermination.call s msgs = .ok (some d, s') →
      TextMentionTermination.call s' msgs2 = .error (.terminatedErr alreadyMsg)) ∧
    (∀ (f g : List Message → Bool) (s s' : FunctionalTermination) d msgs msgs2,
      FunctionalTermination.call f s msgs = .ok (some d, s') →
      FunctionalTermination.call g s' msgs2 = .error (.terminatedErr alreadyMsg)) ∧
    (∀ (s s' : TokenUsageTermination) d msgs msgs2,
      TokenUsageTermination.call s msgs = .ok (some d, s') →
      TokenUsageTermination.call s' msgs2 = .error (.terminatedErr alreadyMsg)) ∧
    (∀ (s s' : HandoffTermination) d msgs msgs2,
      HandoffTermination.call s msgs = .ok (some d, s') →
      HandoffTermination.call s' msgs2 = .error (.terminatedErr alreadyMsg)) ∧
    (∀ (s s' : TimeoutTermination) d now now2 msgs msgs2,
      TimeoutTermination.call s now msgs = .ok (some d, s') →
      TimeoutTermination.call s' now2 msgs2 = .error (.terminatedErr alreadyMsg)) ∧
    (∀ (s s' : ExternalTermination) d msgs msgs2,
      ExternalTermination.call s msgs = .ok (some d, s') →
      ExternalTermination.call s' msgs2 = .error (.terminatedErr alreadyMsg)) ∧
    (∀ (s s' : SourceMatchTermination) d msgs msgs2,
      SourceMatchTermination.call s msgs = .ok (some d, s') →
      SourceMatchTermination.call s' msgs2 = .error (.terminatedErr alreadyMsg)) ∧
    (∀ (s s' : TextMessageTermination) d msgs msgs2,
      TextMessageTermination.call s msgs = .ok (some d, s') →
      TextMessageTermination.call s' msgs2 = .error (.terminatedErr alreadyMsg)) ∧
    (∀ (s s' : FunctionCallTermination) d msgs msgs2,
      FunctionCallTermination.call s msgs = .ok (some d, s') →
      FunctionCallTermination.call s' msgs2 = .error (.terminatedErr alreadyMsg)) := by
  refine ⟨?_, ?_, ?_, ?_, ?_, ?_, ?_, ?_, ?_, ?_, ?_⟩
  · intro s s' d msgs msgs2 h
    unfold StopMessageTermination.call at h ⊢
    split at h
    · simp at h
    · cases hscan : scanFirst StopMessageTermination.qual
          (fun _ => StopMessageTermination.directive) msgs with
      | none => rw [hscan] at h; simp at h
      | some d0 =>
        rw [hscan] at h
        simp only [Except.ok.injEq, Prod.mk.injEq, Option.some.injEq] at h
        obtain ⟨-, hs⟩ := h
        subst hs
        rfl
  · intro s s' d msgs msgs2 h
    unfold MaxMessageTermination.call at h
    split at h
    · simp at h
    · simp only [ge_iff_le] at h
      split at h
      · next hge =>
        simp only [Except.ok.injEq, Prod.mk.injEq, Option.some.injEq] at h
        obtain ⟨-, hs⟩ := h
        subst hs
        unfold MaxMessageTermination.call
        rw [if_pos (by simp [MaxMessageTermination.terminated]; exact hge)]
      · simp at h
  · intro s s' d msgs msgs2 h
    unfold TextMentionTermination.call at h ⊢
    split at h
    · simp at h
    · cases hscan : scanFirst (TextMentionTermination.qual s)
          (fun _ => ⟨textMentionStopContent s.termination_text,
            "TextMentionTermination"⟩) msgs with
      | none => rw [hscan] at h; simp at h
      | some d0 =>
        rw [hscan] at h
        simp only [Except.ok.injEq, Prod.mk.injEq, Option.some.injEq] at h
        obtain ⟨-, hs⟩ := h
        subst hs
        rfl
  · intro f g s s' d msgs msgs2 h
    unfold FunctionalTermination.call at h ⊢
    split at h
    · simp at h
    · split at h
      · simp only [Except.ok.injEq, Prod.mk.injEq, Option.some.injEq] at h
        obtain ⟨-, hs⟩ := h
        subst hs
        rfl
      · simp at h
  · intro s s' d msgs msgs2 h
    unfold TokenUsageTermination.call at h
    split at h
    · simp at h
    · simp only [ge_iff_le] at h
      split at h
      · next hterm =>
        simp only [Except.ok.injEq, Prod.mk.injEq, Option.some.injEq] at h
        obtain ⟨-, hs⟩ := h
        subst hs
        unfold TokenUsageTermination.call
        rw [if_pos hterm]
      · simp at h
  · intro s s' d msgs msgs2 h
    unfold HandoffTermination.call at h ⊢
    split at h
    · simp at h
    · cases hscan : scanFirst (HandoffTermination.qual s)
          (fun m => ⟨handoffStopContent s.target m.source, "HandoffTermination"⟩)
          msgs with
      | none => rw [hscan] at h; simp at h
      | some d0 =>
        rw [hscan] at h
        simp only [Except.ok.injEq, Prod.mk.injEq, Option.some.injEq] at h
        obtain ⟨-, hs⟩ := h
        subst hs
        rfl
  · intro s s' d now now2 msgs msgs2 h
    unfold TimeoutTermination.call at h ⊢
    split at h
    · simp at h
    · split at h
      · simp only [Except.ok.injEq, Prod.mk.injEq, Option.some.injEq] at h
        obtain ⟨-, hs⟩ := h
        subst hs
        rfl
      · simp at h
  · intro s s' d msgs msgs2 h
    unfold ExternalTermination.call at h ⊢
    split at h
    · simp at h
    · split at h
      · simp only [Except.ok.injEq, Prod.mk.injEq, Option.some.injEq] at h
        obtain ⟨-, hs⟩ := h
        subst hs
        rfl
      · simp at h
  · intro s s' d msgs msgs2 h
    unfold SourceMatchTermination.call at h ⊢
    split at h
    · simp at h
    · split at h
      · simp at h
      · cases hscan : scanFirst (SourceMatchTermination.qual s)
            (fun m => ⟨sourceMatchStopContent m.source,
              "SourceMatchTermination"⟩) msgs with
        | none => rw [hscan] at h; simp at h
        | some d0 =>
          rw [hscan] at h
          simp only [Except.ok.injEq, Prod.mk.injEq, Option.some.injEq] at h
          obtain ⟨-, hs⟩ := h
          subst hs
          rfl
  · intro s s' d msgs msgs2 h
    unfold TextMessageTermination.call at h ⊢
    split at h
    · simp at h
    · cases hscan : scanFirst (TextMessageTermination.qual s)
          (fun m => ⟨textMessageStopContent m.source, "TextMessageTermination"⟩)
          msgs with
      | none => rw [hscan] at h; simp at h
      | some d0 =>
        rw [hscan] at h
        simp only [Except.ok.injEq, Prod.mk.injEq, Option.some.injEq] at h
        obtain ⟨-, hs⟩ := h
        subst hs
        rfl
  · intro s s' d msgs msgs2 h
    unfold FunctionCallTermination.call at h ⊢
    split at h
    · simp at h
    · cases hscan : scanFirst (FunctionCallTermination.qual s)
          (fun _ => ⟨functionCallStopContent s.function_name,
            "FunctionCallTermination"⟩) msgs with
      | none => rw [hscan] at h; simp at h
      | some d0 =>
        rw [hscan] at h
        simp only [Except.ok.injEq, Prod.mk.injEq, Option.some.injEq] at h
        obtain ⟨-, hs⟩ := h
        subst hs
        rfl

/-- C2 witness: concrete instantiation of the one-shot invariant for
`StopMessageTermination` after firing on a stop message. -/
theorem C2_one_shot_witness :
    StopMessageTermination.call ⟨true⟩ [] = .error (.terminatedErr alreadyMsg) :=
  C2_one_shot.1 StopMessageTermination.init ⟨true⟩ StopMessageTermination.directive
    [⟨"a", .stopMsg, "stop", none⟩] [] rfl

/-- C3 counterexample: the claim "reset … makes triggered false" fails on the
code. `MaxMessageTermination(0)` is freshly constructed (a reachable state),
and after `reset` its `terminated` property is already `true`, because the
zeroed count reaches the non-positive ceiling. -/
theorem C3_reset_counterexample :
    MaxMessageTermination.terminated
      (MaxMessageTermination.reset (MaxMessageTermination.init 0 false)) = true := by
  decide

/-- C3 (amended): for every predicate and every state, `reset` rebuilds the
construction-time progress state for the same configuration (the timeout
predicate recaptures the current clock reading), it never fails (it is a
total function), and it is idempotent. `triggered` becomes false after
`reset` unconditionally for all predicates except the two threshold
accumulators, where it becomes false exactly when the configured ceilings
are positive — for the message-count predicate iff `0 < max_messages`, and
for the token-usage predicate iff every configured ceiling is positive (with
a non-positive ceiling the zeroed counters already reach it). -/
theorem C3_reset_amended :
    (∀ s : StopMessageTermination,
      s.reset = StopMessageTermination.init ∧ s.reset.reset = s.reset ∧
      s.reset.terminated = false) ∧
    (∀ s : MaxMessageTermination,
      s.reset = MaxMessageTermination.init s.max_messages s.include_agent_event ∧
      s.reset.reset = s.reset ∧
      (0 < s.max_messages → MaxMessageTermination.terminated s.reset = false) ∧
      (s.max_messages ≤ 0 → MaxMessageTermination.terminated s.reset = true)) ∧
    (∀ s : TextMentionTermination,
      s.reset = TextMentionTermination.init s.termination_text s.sources ∧
      s.reset.reset = s.reset ∧ s.reset.terminated = false) ∧
    (∀ s : FunctionalTermination,
      s.reset = FunctionalTermination.init ∧ s.reset.reset = s.reset ∧
      s.reset.terminated = false) ∧
    (∀ s : TokenUsageTermination,
      s.reset = ⟨s.max_total_token, s.max_prompt_token, s.max_completion_token,
        0, 0, 0⟩ ∧
      s.reset.reset = s.reset ∧
      (TokenUsageTermination.terminated s.reset = false ↔
        ((∀ m, s.max_total_token = some m → 0 < m) ∧
         (∀ m, s.max_prompt_token = some m → 0 < m) ∧
         (∀ m, s.max_completion_token = some m → 0 < m)))) ∧
    (∀ s : HandoffTermination,
      s.reset = HandoffTermination.init s.target ∧ s.reset.reset = s.reset ∧
      s.reset.terminated = false) ∧
    (∀ (s : TimeoutTermination) (now : Int),
      s.reset now = TimeoutTermination.init s.timeout_seconds now ∧
      (s.reset now).reset now = s.reset now ∧
      (s.reset now).terminated = false) ∧
    (∀ s : ExternalTermination,
      s.reset = ExternalTermination.init ∧ s.reset.reset = s.reset ∧
      s.reset.terminated = false ∧ s.reset.setted = false) ∧
    (∀ s : SourceMatchTermination,
      s.reset = SourceMatchTermination.init s.sources ∧ s.reset.reset = s.reset ∧
      s.reset.terminated = false) ∧
    (∀ s : TextMessageTermination,
      s.reset = TextMessageTermination.init s.source ∧ s.reset.reset = s.reset ∧
      s.reset.terminated = false) ∧
    (∀ s : FunctionCallTermination,
      s.reset = FunctionCallTermination.init s.function_name ∧
      s.reset.reset = s.reset ∧ s.reset.terminated = false) := by
  refine ⟨fun s => ⟨rfl, rfl, rfl⟩, fun s => ⟨rfl, rfl, ?_, ?_⟩,
    fun s => ⟨rfl, rfl, rfl⟩, fun s => ⟨rfl, rfl, rfl⟩,
    fun s => ⟨rfl, rfl, ?_⟩, fun s => ⟨rfl, rfl, rfl⟩,
    fun s now => ⟨rfl, rfl, rfl⟩, fun s => ⟨rfl, rfl, rfl, rfl⟩,
    fun s => ⟨rfl, rfl, rfl⟩, fun s => ⟨rfl, rfl, rfl⟩,
    fun s => ⟨rfl, rfl, rfl⟩⟩
  · intro hpos
    simp only [MaxMessageTermination.terminated, MaxMessageTermination.reset]
    simp
    omega
  · intro hnonpos
    simp only [MaxMessageTermination.terminated, MaxMessageTermination.reset]
    simp
    omega
  · rcases s with ⟨mt, mp, mc, tc, pc, cc⟩
    rcases mt with - | m1 <;> rcases mp with - | m2 <;> rcases mc with - | m3 <;>
      simp_all [TokenUsageTermination.terminated, TokenUsageTermination.reset]
    all_goals omega

/-- C3 witness: the amended reset property instantiated for a concrete
message-count predicate with ceiling 3 and count 5, and for concrete
token-usage predicates with prompt ceiling 10 (reset clears `triggered`) and
with prompt ceiling 0 (reset leaves `triggered` true). -/
theorem C3_reset_amended_witness :
    MaxMessageTermination.reset ⟨3, 5, false⟩ = MaxMessageTermination.init 3 false ∧
    MaxMessageTermination.terminated (MaxMessageTermination.reset ⟨3, 5, false⟩)
      = false ∧
    TokenUsageTermination.terminated
      (TokenUsageTermination.reset ⟨none, some 10, none, 105, 5, 100⟩) = false ∧
    TokenUsageTermination.terminated
      (TokenUsageTermination.reset ⟨none, some 0, none, 105, 5, 100⟩) = true :=
  ⟨(C3_reset_amended.2.1 ⟨3, 5, false⟩).1,
    (C3_reset_amended.2.1 ⟨3, 5, false⟩).2.2.1 (by decide),
    (C3_reset_amended.2.2.2.2.1 ⟨none, some 10, none, 105, 5, 100⟩).2.2.mpr
      ⟨fun m hm => by injection hm, fun m hm => by injection hm with h; omega,
        fun m hm => by injection hm⟩,
    by
      have h := (C3_reset_amended.2.2.2.2.1 ⟨none, some 0, none, 105, 5, 100⟩).2.2
      by_contra hne
      have hfalse : TokenUsageTermination.terminated
          (TokenUsageTermination.reset ⟨none, some 0, none, 105, 5, 100⟩)
            = false := by
        cases hb : TokenUsageTermination.terminated
            (TokenUsageTermination.reset ⟨none, some 0, none, 105, 5, 100⟩)
        · rfl
        · exact absurd hb hne
      exact absurd ((h.mp hfalse).2.1 0 rfl) (by omega)⟩

/-- C4: the token-usage budget predicate raises `ValueError` at construction
when no ceiling at all is provided; with at least one ceiling construction
succeeds (zeroed totals), and `__call__` can never raise a configuration
error (its only error is the `TerminatedException`); `reset` is a total
function and raises nothing. -/
theorem C4_token_usage_construction :
    TokenUsageTermination.init none none none
      = .error (.valueError tokenUsageCfgMsg) ∧
    (∀ mt mp mc : Option Int, ¬(mt = none ∧ mp = none ∧ mc = none) →
      TokenUsageTermination.init mt mp mc = .ok ⟨mt, mp, mc, 0, 0, 0⟩) ∧
    (∀ (s : TokenUsageTermination) (msgs : List Message) (m : String),
      TokenUsageTermination.call s msgs ≠ .error (.valueError m)) := by
  refine ⟨rfl, ?_, ?_⟩
  · intro mt mp mc hne
    rcases mt with - | x <;> rcases mp with - | y <;> rcases mc with - | z <;>
      simp_all [TokenUsageTermination.init]
  · intro s msgs m h
    unfold TokenUsageTermination.call at h
    split at h
    · simp at h
    · simp only [ge_iff_le] at h
      split at h <;> simp at h

/-- C4 witness: a concrete successful construction with one ceiling, via the
general theorem. -/
theorem C4_token_usage_construction_witness :
    TokenUsageTermination.init none (some 10) none
      = .ok ⟨none, some 10, none, 0, 0, 0⟩ :=
  C4_token_usage_construction.2.1 none (some 10) none (by simp)

/-- C5: the message-count predicate adds the number of qualifying messages
in the batch to its counter, fires exactly when the post-increment total
reaches or exceeds the ceiling (reporting that total, unclamped), and in the
concrete boundary scenario with ceiling 3 and one qualifying message per
call it stays silent on the first two calls and fires on the third with
reported count 3; a batch of 5 messages against ceiling 3 reports 5. -/
theorem C5_max_message_counting :
    (∀ (s : MaxMessageTermination) (msgs : List Message),
      s.terminated = false →
      (((s.message_count
            + MaxMessageTermination.qualCount s.include_agent_event msgs : Nat)
          : Int) ≥ s.max_messages →
        MaxMessageTermination.call s msgs =
          .ok (some ⟨maxMessageStopContent s.max_messages
              (s.message_count
                + MaxMessageTermination.qualCount s.include_agent_event msgs),
            "MaxMessageTermination"⟩,
            ⟨s.max_messages,
              s.message_count
                + MaxMessageTermination.qualCount s.include_agent_event msgs,
              s.include_agent_event⟩)) ∧
      (((s.message_count
            + MaxMessageTermination.qualCount s.include_agent_event msgs : Nat)
          : Int) < s.max_messages →
        MaxMessageTermination.call s msgs =
          .ok (none, ⟨s.max_messages,
            s.message_count
              + MaxMessageTermination.qualCount s.include_agent_event msgs,
            s.include_agent_event⟩))) ∧
    (∀ m : Message, isChatMessage m = true →
      MaxMessageTermination.call (MaxMessageTermination.init 3 false) [m]
        = .ok (none, ⟨3, 1, false⟩) ∧
      MaxMessageTermination.call ⟨3, 1, false⟩ [m] = .ok (none, ⟨3, 2, false⟩) ∧
      MaxMessageTermination.call ⟨3, 2, false⟩ [m] =
        .ok (some ⟨maxMessageStopContent 3 3, "MaxMessageTermination"⟩,
          ⟨3, 3, false⟩)) ∧
    MaxMessageTermination.call (MaxMessageTermination.init 3 false)
        (List.replicate 5 ⟨"a", .otherChatMsg, "x", none⟩) =
      .ok (some ⟨maxMessageStopContent 3 5, "MaxMessageTermination"⟩,
        ⟨3, 5, false⟩) := by
  refine ⟨?_, ?_, by rfl⟩
  · intro s msgs hterm
    constructor
    · intro hge
      unfold MaxMessageTermination.call
      rw [if_neg (by simp [hterm])]
      simp only [ge_iff_le]
      rw [if_pos hge]
    · intro hlt
      unfold MaxMessageTermination.call
      rw [if_neg (by simp [hterm])]
      simp only [ge_iff_le]
      rw [if_neg (by omega)]
  · intro m hm
    refine ⟨?_, ?_, ?_⟩ <;>
      simp [MaxMessageTermination.call, MaxMessageTermination.terminated,
        MaxMessageTermination.qualCount, MaxMessageTermination.init,
        hm, List.filter]

/-- C5 witness: the general counting property instantiated at count 2,
ceiling 3, one chat message: the call fires and reports 3. -/
theorem C5_max_message_counting_witness :
    MaxMessageTermination.call ⟨3, 2, false⟩ [⟨"a", .otherChatMsg, "x", none⟩] =
      .ok (some ⟨maxMessageStopContent 3 3, "MaxMessageTermination"⟩,
        ⟨3, 3, false⟩) :=
  (C5_max_message_counting.1 ⟨3, 2, false⟩ [⟨"a", .otherChatMsg, "x", none⟩]
    (by decide)).1 (by decide)

/-- C6: the token-usage predicate accumulates three independent running
totals over the whole batch (prompt, completion, and total as the separately
accumulated sum of prompt+completion), preserves the ceilings, fires exactly
when the accumulated state reaches any configured ceiling; concretely, with
only `max_prompt_token=10` and one message carrying `{prompt: 5,
completion: 100}` per call, the first call stays silent (despite completion
100 and total 105) and the second fires because the prompt total reaches
10. -/
theorem C6_token_budget :
    (∀ (s : TokenUsageTermination) (msgs : List Message),
      (TokenUsageTermination.accumulate s msgs).prompt_token_count
          = s.prompt_token_count
            + ((msgs.filterMap Message.models_usage).map
                RequestUsage.prompt_tokens).sum ∧
      (TokenUsageTermination.accumulate s msgs).completion_token_count
          = s.completion_token_count
            + ((msgs.filterMap Message.models_usage).map
                RequestUsage.completion_tokens).sum ∧
      (TokenUsageTermination.accumulate s msgs).total_token_count
          = s.total_token_count
            + ((msgs.filterMap Message.models_usage).map
                (fun u => u.prompt_tokens + u.completion_tokens)).sum ∧
      (TokenUsageTermination.accumulate s msgs).max_total_token
          = s.max_total_token ∧
      (TokenUsageTermination.accumulate s msgs).max_prompt_token
          = s.max_prompt_token ∧
      (TokenUsageTermination.accumulate s msgs).max_completion_token
          = s.max_completion_token) ∧
    (∀ (s : TokenUsageTermination) (msgs : List Message),
      s.terminated = false →
      TokenUsageTermination.call s msgs =
        if (TokenUsageTermination.accumulate s msgs).terminated = true then
          .ok (some ⟨tokenUsageStopContent
              (TokenUsageTermination.accumulate s msgs).total_token_count
              (TokenUsageTermination.accumulate s msgs).prompt_token_count
              (TokenUsageTermination.accumulate s msgs).completion_token_count,
            "TokenUsageTermination"⟩, TokenUsageTermination.accumulate s msgs)
        else .ok (none, TokenUsageTermination.accumulate s msgs)) ∧
    (TokenUsageTermination.call ⟨none, some 10, none, 0, 0, 0⟩
        [⟨"a", .otherChatMsg, "x", some ⟨5, 100⟩⟩]
      = .ok (none, ⟨none, some 10, none, 105, 5, 100⟩) ∧
     TokenUsageTermination.call ⟨none, some 10, none, 105, 5, 100⟩
        [⟨"a", .otherChatMsg, "x", some ⟨5, 100⟩⟩]
      = .ok (some ⟨tokenUsageStopContent 210 10 200, "TokenUsageTermination"⟩,
          ⟨none, some 10, none, 210, 10, 200⟩)) := by
  refine ⟨?_, ?_, by constructor <;> rfl⟩
  · intro s msgs
    induction msgs generalizing s with
    | nil => simp [TokenUsageTermination.accumulate]
    | cons m t ih =>
      unfold TokenUsageTermination.accumulate
      cases hu : m.models_usage with
      | none =>
        simp only [List.filterMap_cons, hu]
        exact ih s
      | some u =>
        obtain ⟨hp, hc, htot, hm1, hm2, hm3⟩ :=
          ih ⟨s.max_total_token, s.max_prompt_token, s.max_completion_token,
            s.total_token_count + (u.prompt_tokens + u.completion_tokens),
            s.prompt_token_count + u.prompt_tokens,
            s.completion_token_count + u.completion_tokens⟩
        simp only [List.filterMap_cons, hu, List.map_cons, List.sum_cons]
        exact ⟨by rw [hp]; dsimp only; omega, by rw [hc]; dsimp only; omega,
          by rw [htot]; dsimp only; omega, hm1, hm2, hm3⟩
  · intro s msgs hterm
    unfold TokenUsageTermination.call
    rw [if_neg (by simp [hterm])]

/-- C6 witness: the firing rule instantiated at the concrete
prompt-ceiling-10 state after one `{prompt: 5, completion: 100}` message. -/
theorem C6_token_budget_witness :
    TokenUsageTermination.call ⟨none, some 10, none, 105, 5, 100⟩
        [⟨"a", .otherChatMsg, "x", some ⟨5, 100⟩⟩]
      = if (TokenUsageTermination.accumulate ⟨none, some 10, none, 105, 5, 100⟩
            [⟨"a", .otherChatMsg, "x", some ⟨5, 100⟩⟩]).terminated = true then
          .ok (some ⟨tokenUsageStopContent
              (TokenUsageTermination.accumulate ⟨none, some 10, none, 105, 5, 100⟩
                [⟨"a", .otherChatMsg, "x", some ⟨5, 100⟩⟩]).total_token_count
              (TokenUsageTermination.accumulate ⟨none, some 10, none, 105, 5, 100⟩
                [⟨"a", .otherChatMsg, "x", some ⟨5, 100⟩⟩]).prompt_token_count
              (TokenUsageTermination.accumulate ⟨none, some 10, none, 105, 5, 100⟩
                [⟨"a", .otherChatMsg, "x", some ⟨5, 100⟩⟩]).completion_token_count,
            "TokenUsageTermination"⟩,
            TokenUsageTermination.accumulate ⟨none, some 10, none, 105, 5, 100⟩
              [⟨"a", .otherChatMsg, "x", some ⟨5, 100⟩⟩])
        else .ok (none, TokenUsageTermination.accumulate
          ⟨none, some 10, none, 105, 5, 100⟩
          [⟨"a", .otherChatMsg, "x", some ⟨5, 100⟩⟩]) :=
  C6_token_budget.2.1 ⟨none, some 10, none, 105, 5, 100⟩
    [⟨"a", .otherChatMsg, "x", some ⟨5, 100⟩⟩] (by decide)

theorem external_set_iterate (n : Nat) :
    ExternalTermination.set^[n + 1] ExternalTermination.init = ⟨false, true⟩ := by
  induction n with
  | zero => rfl
  | succ k ih =>
    rw [Function.iterate_succ_apply', ih]
    rfl

/-- C7: for the externally-set flag predicate, any positive number of
`set()` calls before the first evaluation makes the first `__call__` fire on
any batch (including the empty one); and once `terminated` is true, `set()`
changes nothing observable: evaluation gives the same result (the
already-terminated error), `terminated` is unchanged, and `reset` yields the
same state. -/
theorem C7_external_flag :
    (∀ (n : Nat) (msgs : List Message), 1 ≤ n →
      ExternalTermination.call
          (ExternalTermination.set^[n] ExternalTermination.init) msgs
        = .ok (some ExternalTermination.directive, ⟨true, true⟩)) ∧
    (∀ s : ExternalTermination, s.terminated = true →
      (∀ msgs, ExternalTermination.call (ExternalTermination.set s) msgs
          = ExternalTermination.call s msgs) ∧
      (ExternalTermination.set s).terminated = s.terminated ∧
      ExternalTermination.reset (ExternalTermination.set s)
        = ExternalTermination.reset s) := by
  constructor
  · intro n msgs hn
    obtain ⟨k, rfl⟩ : ∃ k, n = k + 1 := ⟨n - 1, by omega⟩
    rw [external_set_iterate]
    rfl
  · intro s hterm
    refine ⟨fun msgs => ?_, rfl, rfl⟩
    simp [ExternalTermination.call, ExternalTermination.set, hterm]

/-- C7 witness: one `set()` before the first evaluation, empty batch. -/
theorem C7_external_flag_witness :
    ExternalTermination.call
        (ExternalTermination.set^[1] ExternalTermination.init) []
      = .ok (some ExternalTermination.directive, ⟨true, true⟩) :=
  C7_external_flag.1 1 [] (by decide)

/-- C8: every stateless-trigger predicate scans its batch in order and is
determined by the first qualifying message: if a prefix of the batch already
produces a directive, appending any further messages yields the very same
directive and the very same post-state (messages after the match are never
inspected). -/
theorem C8_short_circuit :
    (∀ (s s' : StopMessageTermination) d pre rest,
      StopMessageTermination.call s pre = .ok (some d, s') →
      StopMessageTermination.call s (pre ++ rest) = .ok (some d, s')) ∧
    (∀ (s s' : TextMentionTermination) d pre rest,
      TextMentionTermination.call s pre = .ok (some d, s') →
      TextMentionTermination.call s (pre ++ rest) = .ok (some d, s')) ∧
    (∀ (s s' : HandoffTermination) d pre rest,
      HandoffTermination.call s pre = .ok (some d, s') →
      HandoffTermination.call s (pre ++ rest) = .ok (some d, s')) ∧
    (∀ (s s' : SourceMatchTermination) d pre rest,
      SourceMatchTermination.call s pre = .ok (some d, s') →
      SourceMatchTermination.call s (pre ++ rest) = .ok (some d, s')) ∧
    (∀ (s s' : TextMessageTermination) d pre rest,
      TextMessageTermination.call s pre = .ok (some d, s') →
      TextMessageTermination.call s (pre ++ rest) = .ok (some d, s')) ∧
    (∀ (s s' : FunctionCallTermination) d pre rest,
      FunctionCallTermination.call s pre = .ok (some d, s') →
      FunctionCallTermination.call s (pre ++ rest) = .ok (some d, s')) := by
  refine ⟨?_, ?_, ?_, ?_, ?_, ?_⟩
  · intro s s' d pre rest h
    unfold StopMessageTermination.call at h ⊢
    split at h
    · simp at h
    · next hterm =>
      rw [if_neg hterm]
      cases hscan : scanFirst StopMessageTermination.qual
          (fun _ => StopMessageTermination.directive) pre with
      | none => rw [hscan] at h; simp at h
      | some d0 =>
        rw [hscan] at h
        rw [scanFirst_append_some _ _ pre rest d0 hscan]
        exact h
  · intro s s' d pre rest h
    unfold TextMentionTermination.call at h ⊢
    split at h
    · simp at h
    · next hterm =>
      rw [if_neg hterm]
      cases hscan : scanFirst (TextMentionTermination.qual s)
          (fun _ => ⟨textMentionStopContent s.termination_text,
            "TextMentionTermination"⟩) pre with
      | none => rw [hscan] at h; simp at h
      | some d0 =>
        rw [hscan] at h
        rw [scanFirst_append_some _ _ pre rest d0 hscan]
        exact h
  · intro s s' d pre rest h
    unfold HandoffTermination.call at h ⊢
    split at h
    · simp at h
    · next hterm =>
      rw [if_neg hterm]
      cases hscan : scanFirst (HandoffTermination.qual s)
          (fun m => ⟨handoffStopContent s.target m.source, "HandoffTermination"⟩)
          pre with
      | none => rw [hscan] at h; simp at h
      | some d0 =>
        rw [hscan] at h
        rw [scanFirst_append_some _ _ pre rest d0 hscan]
        exact h
  · intro s s' d pre rest h
    unfold SourceMatchTermination.call at h ⊢
    split at h
    · simp at h
    · next hterm =>
      rw [if_neg hterm]
      split at h
      · simp at h
      · next hemp =>
        rw [if_neg (by
          intro hcon
          apply hemp
          rcases pre with - | ⟨m, t⟩
          · rfl
          · simp at hcon)]
        cases hscan : scanFirst (SourceMatchTermination.qual s)
            (fun m => ⟨sourceMatchStopContent m.source,
              "SourceMatchTermination"⟩) pre with
        | none => rw [hscan] at h; simp at h
        | some d0 =>
          rw [hscan] at h
          rw [scanFirst_append_some _ _ pre rest d0 hscan]
          exact h
  · intro s s' d pre rest h
    unfold TextMessageTermination.call at h ⊢
    split at h
    · simp at h
    · next hterm =>
      rw [if_neg hterm]
      cases hscan : scanFirst (TextMessageTermination.qual s)
          (fun m => ⟨textMessageStopContent m.source, "TextMessageTermination"⟩)
          pre with
      | none => rw [hscan] at h; simp at h
      | some d0 =>
        rw [hscan] at h
        rw [scanFirst_append_some _ _ pre rest d0 hscan]
        exact h
  · intro s s' d pre rest h
    unfold FunctionCallTermination.call at h ⊢
    split at h
    · simp at h
    · next hterm =>
      rw [if_neg hterm]
      cases hscan : scanFirst (FunctionCallTermination.qual s)
          (fun _ => ⟨functionCallStopContent s.function_name,
            "FunctionCallTermination"⟩) pre with
      | none => rw [hscan] at h; simp at h
      | some d0 =>
        rw [hscan] at h
        rw [scanFirst_append_some _ _ pre rest d0 hscan]
        exact h

/-- C8 witness: a stop message followed by a further chat message produces
the same directive and state as the one-element prefix alone. -/
theorem C8_short_circuit_witness :
    StopMessageTermination.call StopMessageTermination.init
        ([⟨"a", .stopMsg, "stop", none⟩] ++ [⟨"b", .otherChatMsg, "x", none⟩])
      = .ok (some StopMessageTermination.directive, ⟨true⟩) :=
  C8_short_circuit.1 StopMessageTermination.init ⟨true⟩
    StopMessageTermination.directive [⟨"a", .stopMsg, "stop", none⟩]
    [⟨"b", .otherChatMsg, "x", none⟩] rfl

/-- C9: `MaxMessageTermination.__init__` performs no validation (in the
embedding `init` is a total function), and with `max_messages ≤ 0` the
instance is born triggered: `terminated` is true in every state of such an
instance (the count is a natural number), including right after `reset`, so
every `__call__` raises the already-terminated error and the instance can
never return a stop directive. -/
theorem C9_max_message_no_validation :
    ∀ (mx : Int) (inc : Bool), mx ≤ 0 →
      MaxMessageTermination.terminated (MaxMessageTermination.init mx inc)
        = true ∧
      (∀ s : MaxMessageTermination, s.max_messages = mx →
        MaxMessageTermination.terminated s = true ∧
        MaxMessageTermination.terminated s.reset = true ∧
        (∀ msgs, s.call msgs = .error (.terminatedErr alreadyMsg)) ∧
        (∀ msgs d s2, s.call msgs ≠ .ok (some d, s2))) := by
  intro mx inc hmx
  have hgen : ∀ s : MaxMessageTermination, s.max_messages = mx →
      MaxMessageTermination.terminated s = true := by
    intro s hs
    simp only [MaxMessageTermination.terminated, ge_iff_le, decide_eq_true_eq,
      hs]
    omega
  have hcall : ∀ s : MaxMessageTermination, s.max_messages = mx →
      ∀ msgs, s.call msgs = .error (.terminatedErr alreadyMsg) := by
    intro s hs msgs
    unfold MaxMessageTermination.call
    rw [if_pos (hgen s hs)]
  refine ⟨hgen _ rfl, fun s hs => ⟨hgen s hs,
    hgen s.reset (by simp [MaxMessageTermination.reset, hs]),
    hcall s hs, fun msgs d s2 h => ?_⟩⟩
  rw [hcall s hs msgs] at h
  simp at h

/-- C9 witness: the fresh instance with ceiling 0 raises on its first
evaluation. -/
theorem C9_max_message_no_validation_witness :
    MaxMessageTermination.call (MaxMessageTermination.init 0 false) []
      = .error (.terminatedErr alreadyMsg) :=
  ((C9_max_message_no_validation 0 false (by decide)).2
    (MaxMessageTermination.init 0 false) rfl).2.2.1 []

/-- C10: a single token-usage evaluation accumulates the usage of every
message in the batch before any ceiling check — the post-state is always the
accumulation of the whole batch; concretely, with `max_prompt_token=10` and
a batch whose first message alone reaches the ceiling (`{prompt: 10,
completion: 0}`), the directive still reports totals that include the second
message (`{prompt: 7, completion: 3}`): total 20, prompt 17, completion 3. -/
theorem C10_token_usage_no_short_circuit :
    (∀ (s : TokenUsageTermination) (msgs : List Message),
      s.terminated = false →
      ∃ r, TokenUsageTermination.call s msgs
          = .ok (r, TokenUsageTermination.accumulate s msgs)) ∧
    TokenUsageTermination.call ⟨none, some 10, none, 0, 0, 0⟩
        [⟨"a", .otherChatMsg, "x", some ⟨10, 0⟩⟩,
         ⟨"b", .otherChatMsg, "y", some ⟨7, 3⟩⟩]
      = .ok (some ⟨tokenUsageStopContent 20 17 3, "TokenUsageTermination"⟩,
          ⟨none, some 10, none, 20, 17, 3⟩) := by
  refine ⟨?_, by rfl⟩
  intro s msgs hterm
  unfold TokenUsageTermination.call
  rw [if_neg (by simp [hterm])]
  dsimp only
  split
  · exact ⟨_, rfl⟩
  · exact ⟨_, rfl⟩

/-- C10 witness: the whole-batch accumulation shape at a concrete
non-triggered state and batch. -/
theorem C10_token_usage_no_short_circuit_witness :
    ∃ r, TokenUsageTermination.call ⟨none, some 10, none, 0, 0, 0⟩
        [⟨"a", .otherChatMsg, "x", some ⟨10, 0⟩⟩,
         ⟨"b", .otherChatMsg, "y", some ⟨7, 3⟩⟩]
      = .ok (r, TokenUsageTermination.accumulate ⟨none, some 10, none, 0, 0, 0⟩
          [⟨"a", .otherChatMsg, "x", some ⟨10, 0⟩⟩,
           ⟨"b", .otherChatMsg, "y", some ⟨7, 3⟩⟩]) :=
  C10_token_usage_no_short_circuit.1 ⟨none, some 10, none, 0, 0, 0⟩
    [⟨"a", .otherChatMsg, "x", some ⟨10, 0⟩⟩,
     ⟨"b", .otherChatMsg, "y", some ⟨7, 3⟩⟩] (by decide)
